import Mathlib

/-!
Shallow embedding of the authentication core of the inventory-management
server (src/auth_manager.py, src/data_store.py, src/server.py), together
with theorems settling the claims C1-C10 about its specification.

Modelling conventions:
- A Python dict user record becomes the structure `User`; the USERS and
  ACTIVITY_LOG sheets of the external spreadsheet become lists inside `Store`.
- Python exceptions raised by the auth manager become the `PyErr` sum;
  functions that may raise return `Except PyErr _` results paired with the
  resulting store (errors leave the store unchanged, as in the source, which
  raises before performing any write).
- Timestamps are naturals (seconds); `datetime.now().strftime(...)` strings
  are modelled by an explicit `nowStr` argument, and `toString now` where the
  server derives them from the same clock.
- The in-memory `failed_login_attempts` dict of server.py is modelled as a
  function `String → Option FailedAttempt` (keyed lookup, order irrelevant);
  the `sessions` dict is modelled as an association list preserving insertion
  order, because the `logout` endpoint iterates it in insertion order.
-/

namespace InventoryAuth

/-- A row of the USERS sheet, in the column order fixed by data_store.py. -/
structure User where
  user_ID : String
  username : String
  email : String
  password_Hash : String
  role : String
  created_Date : String
  last_Login : String
  account_Status : String
  created_By : String
  notes : String
deriving Repr, DecidableEq

/-- A row of the ACTIVITY_LOG sheet (data_store.py, log_activity). -/
structure LogEntry where
  log_ID : String
  user_ID : String
  action : String
  timestamp : String
  details : String
deriving Repr, DecidableEq

/-- The persistent state touched by the auth core: the USERS sheet plus the
ACTIVITY_LOG sheet. -/
structure Store where
  users : List User
  logs : List LogEntry
deriving Repr, DecidableEq

/-- The two exception kinds raised by src/auth_manager.py
(`PermissionError` and `ValueError`). -/
inductive PyErr where
  | permissionError (msg : String)
  | valueError (msg : String)
deriving Repr, DecidableEq

/-! ### Model of the external bcrypt library

The bcrypt library is a third-party dependency, not part of this repository.
It is modelled with a deterministic salt: `hashpw` tags the password with a
`$2b$12$` header, and `checkpw` first parses the `$2b$` salt header of the
stored value, raising `ValueError "Invalid salt"` when it is absent (the
documented behaviour of the library on malformed or empty stored hashes),
and otherwise compares.  The three properties the development relies on are
exactly those of the real library: a stored value produced by `hashpw pw`
verifies against `pw` and against no other password, and a stored value
without a valid salt header makes `checkpw` raise instead of returning. -/

/-- Model of `bcrypt.hashpw` (deterministic salt). -/
def hashpw (plain : String) : String := "$2b$12$" ++ plain

/-- Whether a stored string carries the `$2b$` bcrypt salt header. -/
def hasBcryptMarker (h : String) : Bool :=
  match h.data with
  | '$' :: '2' :: 'b' :: '$' :: _ => true
  | _ => false

/-- Model of `bcrypt.checkpw`: `ValueError "Invalid salt"` on a stored value
without a bcrypt salt header, otherwise a boolean comparison. -/
def checkpw (plain hashed : String) : Except String Bool :=
  if hasBcryptMarker hashed then .ok (hashed == hashpw plain) else .error "Invalid salt"

theorem string_data_append (s t : String) : (s ++ t).data = s.data ++ t.data := by
  cases s; cases t; rfl

theorem hasBcryptMarker_hashpw (plain : String) : hasBcryptMarker (hashpw plain) = true := by
  have h : (hashpw plain).data = '$' :: '2' :: 'b' :: '$' :: ('1' :: '2' :: '$' :: plain.data) := by
    have h7 : ("$2b$12$" : String).data = ['$', '2', 'b', '$', '1', '2', '$'] := rfl
    simp [hashpw, string_data_append, h7]
  simp [hasBcryptMarker, h]

theorem checkpw_hashpw_self (plain : String) : checkpw plain (hashpw plain) = .ok true := by
  simp [checkpw, hasBcryptMarker_hashpw]

/-- Model of Python `str.lower()`: per-character ASCII case folding.
(Defined structurally over the character list so that concrete evaluation
reduces; `String.toLower` of core Lean is extensionally the same but is not
kernel-reducible.) -/
def strLower (s : String) : String := ⟨s.data.map Char.toLower⟩

/-! ### Embedding of data_store.py (record-level view of the USERS sheet) -/

/-- Update the first user whose `User_ID` matches (the row located by
`users_ws.find(user_id)` in data_store.py). -/
def updateFirstById (users : List User) (user_id : String) (f : User → User) : List User :=
  match users with
  | [] => []
  | u :: rest => if u.user_ID = user_id then f u :: rest else u :: updateFirstById rest user_id f

/-- Remove the first user whose `User_ID` matches (data_store.py,
`delete_user`, which deletes the located row). -/
def removeFirstById (users : List User) (user_id : String) : List User :=
  match users with
  | [] => []
  | u :: rest => if u.user_ID = user_id then rest else u :: removeFirstById rest user_id

/-- `DataStore.log_activity`: appends one row to ACTIVITY_LOG.  The source
computes the log id from the current unix timestamp; here from `nowStr`. -/
def log_activity (store : Store) (user_id action details nowStr : String) : Store :=
  { store with logs := store.logs ++
      [{ log_ID := "LOG" ++ nowStr, user_ID := user_id, action := action,
         timestamp := nowStr, details := details }] }

/-- `DataStore.get_user_by_id`: first user with the given id, else `None`. -/
def get_user_by_id (store : Store) (user_id : String) : Option User :=
  store.users.find? (fun u => u.user_ID == user_id)

/-- `DataStore.update_user`: raises `ValueError` when the id is absent,
otherwise applies the provided field updates to the located row. -/
def db_update_user (store : Store) (user_id : String) (f : User → User) : Except PyErr Store :=
  match store.users.find? (fun u => u.user_ID == user_id) with
  | some _ => .ok { store with users := updateFirstById store.users user_id f }
  | none => .error (.valueError ("User ID " ++ user_id ++ " not found."))

/-- `DataStore.delete_user`: raises `ValueError` when the id is absent,
otherwise deletes the located row. -/
def db_delete_user (store : Store) (user_id : String) : Except PyErr Store :=
  match store.users.find? (fun u => u.user_ID == user_id) with
  | some _ => .ok { store with users := removeFirstById store.users user_id }
  | none => .error (.valueError ("User ID " ++ user_id ++ " not found."))

/-- `DataStore.update_user_password`: raises `ValueError` when the id is
absent, otherwise overwrites the `Password_Hash` cell. -/
def db_update_user_password (store : Store) (user_id new_hash : String) : Except PyErr Store :=
  match store.users.find? (fun u => u.user_ID == user_id) with
  | some _ =>
      .ok { store with
            users := updateFirstById store.users user_id
              (fun v => { v with password_Hash := new_hash }) }
  | none => .error (.valueError ("User ID " ++ user_id ++ " not found."))

/-- `DataStore.update_last_login`: silently does nothing when the id is
absent (the source only writes when `find` returned a cell). -/
def update_last_login (store : Store) (user_id nowStr : String) : Store :=
  { store with
    users := updateFirstById store.users user_id (fun v => { v with last_Login := nowStr }) }

/-! ### Embedding of auth_manager.py -/

/-- Python `f"USR{n:03d}"`: zero-padded to width at least 3. -/
def usrPad (n : Nat) : String :=
  if n < 10 then "USR00" ++ toString n
  else if n < 100 then "USR0" ++ toString n
  else "USR" ++ toString n

/-- `AuthManager._generate_user_id`: scans existing `USR`-shaped ids for the
maximal numeric suffix (non-numeric suffixes are skipped, as the source
swallows the `ValueError` of `int`). -/
def generate_user_id (users : List User) : String :=
  if users.isEmpty then "USR001"
  else
    let max_id := users.foldl (fun m u =>
      if u.user_ID.startsWith "USR" then
        match (u.user_ID.drop 3).toNat? with
        | some n => Nat.max m n
        | none => m
      else m) 0
    usrPad (max_id + 1)

/-- `AuthManager.hash_password`. -/
def hash_password (plain : String) : String := hashpw plain

/-- `AuthManager.verify_password`: a direct, unwrapped call to
`bcrypt.checkpw`; any `ValueError` of the library propagates. -/
def verify_password (plain hashed : String) : Except String Bool := checkpw plain hashed

/-- The caller test of `AuthManager.create_user`:
`not creator_admin or creator_admin.get("Role") != ROLE_ADMIN`. -/
def creatorNotAdmin : Option User → Bool
  | none => true
  | some c => c.role != "Admin"

/-- `AuthManager.create_user`.  With a non-empty directory the caller must be
an Admin; usernames are checked for case-insensitive collisions; the new
record is appended and one activity entry logged. -/
def create_user (store : Store) (creator : Option User)
    (username password role email nowStr : String) : Except PyErr User × Store :=
  if store.users.isEmpty = false ∧ creatorNotAdmin creator = true then
    (.error (.permissionError "Only Admins can create new users."), store)
  else if store.users.any (fun u => strLower u.username == strLower username) then
    (.error (.valueError ("Username \x27" ++ username ++ "\x27 already exists.")), store)
  else
    let user_id := generate_user_id store.users
    let new_user : User :=
      { user_ID := user_id, username := username, email := email,
        password_Hash := hash_password password, role := role,
        created_Date := nowStr, last_Login := "", account_Status := "Active",
        created_By := (match creator with | some c => c.username | none => "SYSTEM_INIT"),
        notes := "" }
    let s1 : Store := { store with users := store.users ++ [new_user] }
    let actor := match creator with | some c => c.user_ID | none => user_id
    let s2 := log_activity s1 actor "CREATE_USER"
      ("Created user " ++ username ++ " (" ++ role ++ ")") nowStr
    (.ok new_user, s2)

/-- The username scan of `AuthManager.authenticate`: first user whose
username matches case-insensitively (the loop returns or raises inside the
first match). -/
def findFirstUsername (users : List User) (username : String) : Option User :=
  users.find? (fun u => strLower u.username == strLower username)

/-- `AuthManager.authenticate`.  Note the order of the source: on a username
match the account status is tested FIRST, raising `PermissionError` for a
non-Active account before the password is ever verified; only then is the
password checked (a malformed stored hash makes `checkpw` raise, which
propagates).  On success the returned record is the snapshot read before
`update_last_login` rewrote the sheet. -/
def authenticate (store : Store) (username password nowStr : String) :
    Except PyErr (Option User) × Store :=
  match findFirstUsername store.users username with
  | some u =>
    if u.account_Status ≠ "Active" then
      (.error (.permissionError "Account is locked or suspended."), store)
    else
      match verify_password password u.password_Hash with
      | .error e => (.error (.valueError e), store)
      | .ok true =>
        let s1 := update_last_login store u.user_ID nowStr
        let s2 := log_activity s1 u.user_ID "LOGIN" "User logged in" nowStr
        (.ok (some u), s2)
      | .ok false => (.ok none, store)
  | none => (.ok none, store)

/-- Per-field application of `AuthManager.update_user`: a username argument
that is `None` or `""` is falsy and skipped. -/
def applyUsername (username : Option String) (u : User) : User :=
  match username with
  | some s => if s ≠ "" then { u with username := s } else u
  | none => u

/-- Email is tested with `is not None`, so the empty string IS applied. -/
def applyEmail (email : Option String) (u : User) : User :=
  match email with
  | some s => { u with email := s }
  | none => u

/-- Role argument: falsy (`None` or `""`) is skipped. -/
def applyRoleField (role : Option String) (u : User) : User :=
  match role with
  | some s => if s ≠ "" then { u with role := s } else u
  | none => u

/-- Status argument: falsy (`None` or `""`) is skipped. -/
def applyStatusField (status : Option String) (u : User) : User :=
  match status with
  | some s => if s ≠ "" then { u with account_Status := s } else u
  | none => u

/-- The `updates` dict built by `AuthManager.update_user`, applied to the
located row by `DataStore.update_user`. -/
def applyUserUpdates (username email role status : Option String) (u : User) : User :=
  applyStatusField status (applyRoleField role (applyEmail email (applyUsername username u)))

/-- Shared tail of `AuthManager.update_user`: write the updates through the
data store, log, and re-read the record. -/
def updUserApply (store : Store) (a : User) (user_id : String)
    (username email role status : Option String) (nowStr : String) :
    Except PyErr (Option User) × Store :=
  match db_update_user store user_id (applyUserUpdates username email role status) with
  | .error e => (.error e, store)
  | .ok s1 =>
    let s2 := log_activity s1 a.user_ID "UPDATE_USER" ("Updated user " ++ user_id) nowStr
    (.ok (get_user_by_id s2 user_id), s2)

/-- `AuthManager.update_user`: Admin-only; a truthy username argument is
checked for case-insensitive collision against every OTHER user; then the
updates are applied and the refreshed record returned. -/
def update_user (store : Store) (admin_user : Option User) (user_id : String)
    (username email role status : Option String) (nowStr : String) :
    Except PyErr (Option User) × Store :=
  match admin_user with
  | none => (.error (.permissionError "Only Admins can update users."), store)
  | some a =>
    if a.role ≠ "Admin" then (.error (.permissionError "Only Admins can update users."), store)
    else
      match username with
      | some s =>
        if s ≠ "" ∧ store.users.any
            (fun u => (u.user_ID != user_id) && (strLower u.username == strLower s)) then
          (.error (.valueError ("Username \x27" ++ s ++ "\x27 already exists.")), store)
        else updUserApply store a user_id username email role status nowStr
      | none => updUserApply store a user_id username email role status nowStr

/-- `AuthManager.delete_user`: Admin-only; self-deletion forbidden; Admin
targets are protected when the count of Admin-ROLE users (status ignored) is
at most one; otherwise the row is removed and the deletion logged. -/
def delete_user (store : Store) (admin_user : Option User) (user_id nowStr : String) :
    Except PyErr String × Store :=
  match admin_user with
  | none => (.error (.permissionError "Only Admins can delete users."), store)
  | some a =>
    if a.role ≠ "Admin" then (.error (.permissionError "Only Admins can delete users."), store)
    else if a.user_ID = user_id then (.error (.permissionError "Cannot delete yourself."), store)
    else
      let admin_count := store.users.countP (fun u => u.role == "Admin")
      match get_user_by_id store user_id with
      | none => (.error (.valueError ("User " ++ user_id ++ " not found.")), store)
      | some target =>
        if target.role = "Admin" ∧ admin_count ≤ 1 then
          (.error (.permissionError "Cannot delete the last admin account."), store)
        else
          match db_delete_user store user_id with
          | .error e => (.error e, store)
          | .ok s1 =>
            (.ok ("User " ++ target.username ++ " deleted"),
             log_activity s1 a.user_ID "DELETE_USER"
               ("Deleted user " ++ target.username ++ " (" ++ user_id ++ ")") nowStr)

/-- The dict returned by `AuthManager.reset_user_password`: note the
`temporary_password` field carrying the plaintext. -/
structure ResetResult where
  status : String
  message : String
  temporary_password : String
deriving Repr, DecidableEq

/-- `AuthManager.reset_user_password`: Admin-only; rehashes and stores the
new password, logs, and returns a dict that includes the plaintext new
password under `temporary_password`. -/
def reset_user_password (store : Store) (admin_user : Option User)
    (user_id new_password nowStr : String) : Except PyErr ResetResult × Store :=
  match admin_user with
  | none => (.error (.permissionError "Only Admins can reset user passwords."), store)
  | some a =>
    if a.role ≠ "Admin" then
      (.error (.permissionError "Only Admins can reset user passwords."), store)
    else
      match get_user_by_id store user_id with
      | none => (.error (.valueError ("User " ++ user_id ++ " not found.")), store)
      | some target =>
        match db_update_user_password store user_id (hash_password new_password) with
        | .error e => (.error e, store)
        | .ok s1 =>
          let s2 := log_activity s1 a.user_ID "RESET_PASSWORD"
            ("Reset password for user " ++ target.username ++ " (" ++ user_id ++ ")") nowStr
          (.ok { status := "success",
                 message := "Password reset for " ++ target.username,
                 temporary_password := new_password }, s2)

/-- `AuthManager.change_password`: verifies the current password (a
malformed stored hash makes `checkpw` raise), then stores the new hash and
logs. -/
def change_password (store : Store) (user : User) (current_password new_password nowStr : String) :
    Except PyErr String × Store :=
  match verify_password current_password user.password_Hash with
  | .error e => (.error (.valueError e), store)
  | .ok false => (.error (.permissionError "Current password is incorrect."), store)
  | .ok true =>
    match db_update_user_password store user.user_ID (hash_password new_password) with
    | .error e => (.error e, store)
    | .ok s1 =>
      (.ok "Password changed successfully",
       log_activity s1 user.user_ID "CHANGE_PASSWORD" "User changed their own password" nowStr)

/-! ### Embedding of server.py (session storage, lockout table, endpoints) -/

/-- An entry of the in-memory `sessions` dict: the identity snapshot taken
at login plus absolute expiry (seconds). -/
structure Session where
  user : User
  expires_at : Nat
  created_at : Nat
deriving Repr, DecidableEq

/-- An entry of the in-memory `failed_login_attempts` dict. -/
structure FailedAttempt where
  count : Nat
  locked_until : Option Nat
deriving Repr, DecidableEq

/-- Keyed update of a dict modelled as a function. -/
def dictSet {α : Type} (m : String → Option α) (k : String) (v : α) : String → Option α :=
  fun q => if q = k then some v else m q

/-- Keyed removal (`dict.pop`) of a dict modelled as a function. -/
def dictPop {α : Type} (m : String → Option α) (k : String) : String → Option α :=
  fun q => if q = k then none else m q

/-- Keyed lookup in a dict modelled as an insertion-ordered association
list (`sessions.get(token)` / `token in sessions`). -/
def alistFind {α : Type} (m : List (String × α)) (k : String) : Option α :=
  (m.find? (fun p => p.1 == k)).map Prod.snd

/-- `sessions.pop(token, None)`: remove the entry with the given key (an
association list modelling a dict holds each key at most once). -/
def alistErase {α : Type} (m : List (String × α)) (k : String) : List (String × α) :=
  match m with
  | [] => []
  | p :: rest => if p.1 = k then rest else p :: alistErase rest k

/-- The whole in-process server state: spreadsheet-backed store plus the two
in-memory dicts of server.py. -/
structure ServerState where
  store : Store
  sessions : List (String × Session)
  attempts : String → Option FailedAttempt

/-- Outcome of the bearer-token dependency: the resolved identity snapshot,
or the `HTTPException` raised. -/
inductive TokenRes where
  | ok (user : User)
  | httpError (code : Nat) (detail : String)
deriving Repr, DecidableEq

/-- `get_current_user_token` (server.py): missing credentials and unknown
tokens are rejected 401; an expired session is popped and rejected 401 with
a DIFFERENT detail string. -/
def get_current_user_token (sessions : List (String × Session))
    (credentials : Option String) (now : Nat) : TokenRes × List (String × Session) :=
  match credentials with
  | none => (.httpError 401 "Not authenticated", sessions)
  | some token =>
    match alistFind sessions token with
    | none => (.httpError 401 "Invalid or expired session", sessions)
    | some session =>
      if session.expires_at < now then
        (.httpError 401 "Session expired", alistErase sessions token)
      else (.ok session.user, sessions)

/-- Outcome of the `POST /auth/login` endpoint. -/
inductive LoginRes where
  | success (user : User) (session_token : String) (expires_at : Nat)
  | httpError (code : Nat) (detail : String)
deriving Repr, DecidableEq

/-- Failed-attempt bookkeeping of the login endpoint (the `if not user:`
block): create the record if absent, increment the counter, and at five or
more failures set the lockout expiry to now + 10 minutes and reject 403;
below the threshold reject 401 with the generic message. -/
def loginFailTrack (st : ServerState) (now : Nat) (username : String) :
    LoginRes × ServerState :=
  let uname := (strLower username)
  let atts1 := match st.attempts uname with
    | none => dictSet st.attempts uname { count := 0, locked_until := none }
    | some _ => st.attempts
  let cur := (atts1 uname).getD { count := 0, locked_until := none }
  if cur.count + 1 ≥ 5 then
    (.httpError 403 "Too many failed login attempts. Account locked for 10 minutes.",
     { st with attempts :=
        dictSet atts1 uname { count := cur.count + 1, locked_until := some (now + 600) } })
  else
    (.httpError 401 "Invalid username or password",
     { st with attempts :=
        dictSet atts1 uname { count := cur.count + 1, locked_until := cur.locked_until } })

/-- Body of the login endpoint after the lockout check: authenticate (a
`PermissionError` or `ValueError` escaping `authenticate` is caught by the
generic `except Exception` clause and surfaced as 500 "Login failed: ...");
on `None` track the failure; on success clear the failed-attempt record,
re-check the account status (dead code: `authenticate` only returns Active
accounts), store a session expiring in 8 hours and return the token. -/
def loginAuth (st : ServerState) (now : Nat) (newToken username password : String) :
    LoginRes × ServerState :=
  match authenticate st.store username password (toString now) with
  | (.error (.permissionError m), store1) =>
      (.httpError 500 ("Login failed: " ++ m), { st with store := store1 })
  | (.error (.valueError m), store1) =>
      (.httpError 500 ("Login failed: " ++ m), { st with store := store1 })
  | (.ok none, store1) => loginFailTrack { st with store := store1 } now username
  | (.ok (some user), store1) =>
    let st1 : ServerState :=
      { st with store := store1, attempts := dictPop st.attempts (strLower username) }
    if user.account_Status ≠ "Active" then
      (.httpError 403 ("Account is " ++ strLower user.account_Status ++
         ". Please contact administrator."), st1)
    else
      (.success user newToken (now + 28800),
       { st1 with sessions := st1.sessions ++
          [(newToken, { user := user, expires_at := now + 28800, created_at := now })] })

/-- `POST /auth/login` (server.py).  The username key of the lockout table
is lowercased.  A lockout whose window has not elapsed is rejected 403 with
the remaining minutes, BEFORE any password verification; an elapsed lockout
is popped and the attempt proceeds.  `newToken` stands for the fresh
`uuid.uuid4()` value. -/
def login (st : ServerState) (now : Nat) (newToken username password : String) :
    LoginRes × ServerState :=
  match st.attempts (strLower username) with
  | some ad =>
    match ad.locked_until with
    | some t =>
      if now < t then
        (.httpError 403 ("Account locked due to too many failed attempts. Try again in " ++
           toString ((t - now) / 60) ++ " minutes."), st)
      else loginAuth { st with attempts := dictPop st.attempts (strLower username) }
             now newToken username password
    | none => loginAuth st now newToken username password
  | none => loginAuth st now newToken username password

/-- Outcome of the `POST /auth/logout` endpoint (the success body is the
constant `{"status": "success", "message": "Logged out successfully"}`). -/
inductive LogoutRes where
  | success
  | httpError (code : Nat) (detail : String)
deriving Repr, DecidableEq

/-- `POST /auth/logout` (server.py): after the bearer-token dependency
resolves the caller, the endpoint scans `sessions` in insertion order for
the FIRST entry whose snapshot has the caller's `User_ID` and pops that
entry — not necessarily the session of the presented token. -/
def logout (sessions : List (String × Session)) (credentials : Option String) (now : Nat) :
    LogoutRes × List (String × Session) :=
  match get_current_user_token sessions credentials now with
  | (.httpError c d, sess1) => (.httpError c d, sess1)
  | (.ok user, sess1) =>
    match sess1.find? (fun p => p.2.user.user_ID == user.user_ID) with
    | some pr => (.success, alistErase sess1 pr.1)
    | none => (.success, sess1)

/-- `POST /auth/initial-setup` (server.py): the bootstrap endpoint, which
creates the first user with role hard-coded to "Admin" and no caller.  When
users already exist, the endpoint raises `HTTPException(400, ...)`, but that
raise sits inside its own `try` block whose final clause catches every
`Exception`, so it is surfaced as 500 "Setup failed: 400: Setup already
completed. Users exist.". -/
def initial_setup (store : Store) (username email password nowStr : String) :
    Except (Nat × String) User × Store :=
  if store.users.isEmpty = false then
    (.error (500, "Setup failed: 400: Setup already completed. Users exist."), store)
  else
    match create_user store none username password "Admin" email nowStr with
    | (.ok u, s) => (.ok u, s)
    | (.error (.valueError m), s) => (.error (400, m), s)
    | (.error (.permissionError m), s) => (.error (500, "Setup failed: " ++ m), s)

/-! ### Helper lemmas about the embedded data-store operations -/

theorem firstById_split {l : List User} {uid : String} {t : User}
    (h : l.find? (fun u => u.user_ID == uid) = some t) :
    ∃ l1 l2, l = l1 ++ t :: l2 ∧ (∀ x ∈ l1, x.user_ID ≠ uid) ∧ t.user_ID = uid ∧
      (∀ f, updateFirstById l uid f = l1 ++ f t :: l2) ∧
      removeFirstById l uid = l1 ++ l2 := by
  induction l with
  | nil => simp at h
  | cons a rest ih =>
    by_cases ha : a.user_ID = uid
    · rw [List.find?_cons_of_pos _ (by simpa using ha)] at h
      cases h
      refine ⟨[], rest, rfl, by simp, ha, fun f => ?_, ?_⟩
      · simp [updateFirstById, ha]
      · simp [removeFirstById, ha]
    · rw [List.find?_cons_of_neg _ (by simpa using ha)] at h
      obtain ⟨l1, l2, h1, h2, h3, h4, h5⟩ := ih h
      refine ⟨a :: l1, l2, by simp [h1], ?_, h3, fun f => ?_, ?_⟩
      · intro x hx
        rcases List.mem_cons.mp hx with rfl | hx
        · exact ha
        · exact h2 x hx
      · simp [updateFirstById, ha, h4 f]
      · simp [removeFirstById, ha, h5]

theorem find?_prepend_not {l1 : List User} {uid : String}
    (h1 : ∀ x ∈ l1, x.user_ID ≠ uid) (l2 : List User) :
    (l1 ++ l2).find? (fun u => u.user_ID == uid) = l2.find? (fun u => u.user_ID == uid) := by
  induction l1 with
  | nil => rfl
  | cons a rest ih =>
    rw [List.cons_append, List.find?_cons_of_neg _ (by simpa using h1 a (by simp))]
    exact ih (fun x hx => h1 x (by simp [hx]))

theorem dictSet_self {α : Type} (m : String → Option α) (k : String) (v : α) :
    dictSet m k v k = some v := by
  simp [dictSet]

theorem dictSet_dictSet {α : Type} (m : String → Option α) (k : String) (v w : α) :
    dictSet (dictSet m k v) k w = dictSet m k w := by
  funext q
  by_cases h : q = k <;> simp [dictSet, h]

theorem dictPop_self {α : Type} (m : String → Option α) (k : String) :
    dictPop m k k = none := by
  simp [dictPop]

theorem alistFind_cons {α : Type} (p : String × α) (l : List (String × α)) (k : String) :
    alistFind (p :: l) k = if p.1 = k then some p.2 else alistFind l k := by
  by_cases h : p.1 = k
  · simp [alistFind, List.find?_cons_of_pos, h]
  · simp [alistFind, List.find?_cons_of_neg, h]

theorem alistFind_eq_none_of_keys {α : Type} {m : List (String × α)} {k : String}
    (h : ∀ p ∈ m, p.1 ≠ k) : alistFind m k = none := by
  have : m.find? (fun p => p.1 == k) = none :=
    List.find?_eq_none.mpr (fun p hp => by simpa using h p hp)
  simp [alistFind, this]

theorem alistFind_erase_self {α : Type} (m : List (String × α)) (k : String)
    (h : (m.map Prod.fst).Nodup) : alistFind (alistErase m k) k = none := by
  induction m with
  | nil => rfl
  | cons p rest ih =>
    rw [List.map_cons, List.nodup_cons] at h
    by_cases hp : p.1 = k
    · subst hp
      rw [show alistErase (p :: rest) p.1 = rest by simp [alistErase]]
      refine alistFind_eq_none_of_keys (fun q hq hqk => ?_)
      exact h.1 (hqk ▸ List.mem_map_of_mem Prod.fst hq)
    · rw [show alistErase (p :: rest) k = p :: alistErase rest k by simp [alistErase, hp]]
      rw [alistFind_cons]
      simp [hp, ih h.2]

/-- Login with a fresh failed-attempt record: a failed authentication creates
the record with count 1 and responds with the generic 401. -/
theorem login_fail_fresh (st : ServerState) (now : Nat) (tok username password : String)
    (h : st.attempts (strLower username) = none)
    (hauth : authenticate st.store username password (toString now) = (.ok none, st.store)) :
    login st now tok username password =
      (.httpError 401 "Invalid username or password",
       { st with attempts :=
          dictSet st.attempts (strLower username) ⟨1, none⟩ }) := by
  simp only [login, h, loginAuth, hauth, loginFailTrack]
  simp [h, dictSet_self, dictSet_dictSet]

/-- Login with an existing unlocked record below the threshold: a failed
authentication increments the counter and responds with the generic 401. -/
theorem login_fail_count (st : ServerState) (now : Nat) (tok username password : String)
    (c : Nat) (hc : c + 1 < 5)
    (h : st.attempts (strLower username) = some ⟨c, none⟩)
    (hauth : authenticate st.store username password (toString now) = (.ok none, st.store)) :
    login st now tok username password =
      (.httpError 401 "Invalid username or password",
       { st with attempts :=
          dictSet st.attempts (strLower username) ⟨c + 1, none⟩ }) := by
  simp only [login, h, loginAuth, hauth, loginFailTrack]
  simp [h, Nat.not_le.mpr hc]

/-- Login reaching the threshold: a failed authentication that brings the
counter to five (or more) sets the lockout expiry to now + 600 seconds and
responds 403. -/
theorem login_fail_lock (st : ServerState) (now : Nat) (tok username password : String)
    (c : Nat) (hc : 5 ≤ c + 1)
    (h : st.attempts (strLower username) = some ⟨c, none⟩)
    (hauth : authenticate st.store username password (toString now) = (.ok none, st.store)) :
    login st now tok username password =
      (.httpError 403 "Too many failed login attempts. Account locked for 10 minutes.",
       { st with attempts :=
          dictSet st.attempts (strLower username) ⟨c + 1, some (now + 600)⟩ }) := by
  simp only [login, h, loginAuth, hauth, loginFailTrack]
  simp [h, hc]

theorem get_current_user_token_ok (sessions : List (String × Session)) (token : String)
    (s : Session) (now : Nat) (hfind : alistFind sessions token = some s)
    (hexp : now ≤ s.expires_at) :
    get_current_user_token sessions (some token) now = (.ok s.user, sessions) := by
  simp [get_current_user_token, hfind, Nat.not_lt.mpr hexp]

/-! ### Concrete fixtures used by witnesses and counterexamples -/

def aliceAdmin : User :=
  { user_ID := "USR001", username := "alice", email := "", password_Hash := hashpw "alicepw",
    role := "Admin", created_Date := "2024-01-01", last_Login := "", account_Status := "Active",
    created_By := "SYSTEM_INIT", notes := "" }

def bobStaff : User :=
  { user_ID := "USR002", username := "bob", email := "b@x", password_Hash := hashpw "bobpw",
    role := "Staff", created_Date := "2024-01-02", last_Login := "", account_Status := "Active",
    created_By := "alice", notes := "" }

def danAdmin : User :=
  { user_ID := "USR003", username := "dan", email := "", password_Hash := hashpw "danpw",
    role := "Admin", created_Date := "2024-01-03", last_Login := "", account_Status := "Active",
    created_By := "alice", notes := "" }

def bobAdminSuspended : User :=
  { user_ID := "USR002", username := "bobadm", email := "", password_Hash := hashpw "bobpw",
    role := "Admin", created_Date := "2024-01-02", last_Login := "",
    account_Status := "Suspended", created_By := "alice", notes := "" }

def samSuspended : User :=
  { user_ID := "USR005", username := "sam", email := "", password_Hash := hashpw "sampw",
    role := "Staff", created_Date := "2024-01-05", last_Login := "",
    account_Status := "Suspended", created_By := "alice", notes := "" }

def malloryEmptyHash : User :=
  { user_ID := "USR004", username := "mallory", email := "", password_Hash := "",
    role := "Staff", created_Date := "2024-01-04", last_Login := "", account_Status := "Active",
    created_By := "alice", notes := "" }

def carolAdmin : User :=
  { user_ID := "USR009", username := "carol", email := "", password_Hash := hashpw "carolpw",
    role := "Admin", created_Date := "2024-01-09", last_Login := "", account_Status := "Active",
    created_By := "SYSTEM_INIT", notes := "" }

/-- Server state for the C1 witness: one active admin, no sessions, clear
lockout table. -/
def lockoutStart : ServerState :=
  { store := { users := [aliceAdmin], logs := [] }, sessions := [], attempts := fun _ => none }

/-- Server state with the lockout already set for "alice" (count 5,
expiry at second 605). -/
def lockoutLocked : ServerState :=
  { store := { users := [aliceAdmin], logs := [] }, sessions := [],
    attempts := fun q => if q = "alice" then some ⟨5, some 605⟩ else none }

/-- Server state for C6/C8-style evaluations: a single suspended user. -/
def suspendedLoginState : ServerState :=
  { store := { users := [samSuspended], logs := [] }, sessions := [], attempts := fun _ => none }

/-! ### Claims -/

/-- Claim C1: five consecutive failed login attempts for a username lock it
for the 10-minute window, the fifth failure setting the lockout expiry to
now + 10 minutes; any further attempt while the window has not elapsed is
rejected 403 with the lockout message for EVERY password, state unchanged
(the password is never verified); once the window has elapsed, a login with
the correct password of an Active account succeeds and the failed-attempt
record is removed entirely. -/
theorem C1_login_lockout :
    (∀ (st : ServerState) (username password tok : String) (t1 t2 t3 t4 t5 : Nat),
      st.attempts (strLower username) = none →
      (∀ ns, authenticate st.store username password ns = (.ok none, st.store)) →
      (login (login (login (login (login st t1 tok username password).2
          t2 tok username password).2 t3 tok username password).2
          t4 tok username password).2 t5 tok username password).1 =
        .httpError 403 "Too many failed login attempts. Account locked for 10 minutes." ∧
      (login (login (login (login (login st t1 tok username password).2
          t2 tok username password).2 t3 tok username password).2
          t4 tok username password).2 t5 tok username password).2.attempts (strLower username) =
        some ⟨5, some (t5 + 600)⟩) ∧
    (∀ (st : ServerState) (username password tok : String) (now t c : Nat),
      st.attempts (strLower username) = some ⟨c, some t⟩ → now < t →
      login st now tok username password =
        (.httpError 403 ("Account locked due to too many failed attempts. Try again in " ++
           toString ((t - now) / 60) ++ " minutes."), st)) ∧
    (∀ (st : ServerState) (username password tok : String) (now t c : Nat) (u : User),
      st.attempts (strLower username) = some ⟨c, some t⟩ → t ≤ now →
      findFirstUsername st.store.users username = some u →
      u.account_Status = "Active" → u.password_Hash = hashpw password →
      (login st now tok username password).1 = .success u tok (now + 28800) ∧
      (login st now tok username password).2.attempts (strLower username) = none) := by
  refine ⟨?_, ?_, ?_⟩
  · intro st username password tok t1 t2 t3 t4 t5 h hauth
    have e1 : login st t1 tok username password =
        (.httpError 401 "Invalid username or password",
         { st with attempts := dictSet st.attempts (strLower username) ⟨1, none⟩ }) :=
      login_fail_fresh st t1 tok username password h (hauth _)
    have e2 : login { st with attempts := dictSet st.attempts (strLower username) ⟨1, none⟩ }
        t2 tok username password =
        (.httpError 401 "Invalid username or password",
         { st with attempts := dictSet st.attempts (strLower username) ⟨2, none⟩ }) := by
      have e := login_fail_count
        { st with attempts := dictSet st.attempts (strLower username) ⟨1, none⟩ }
        t2 tok username password 1 (by omega) (by simp [dictSet]) (hauth _)
      simpa [dictSet_dictSet] using e
    have e3 : login { st with attempts := dictSet st.attempts (strLower username) ⟨2, none⟩ }
        t3 tok username password =
        (.httpError 401 "Invalid username or password",
         { st with attempts := dictSet st.attempts (strLower username) ⟨3, none⟩ }) := by
      have e := login_fail_count
        { st with attempts := dictSet st.attempts (strLower username) ⟨2, none⟩ }
        t3 tok username password 2 (by omega) (by simp [dictSet]) (hauth _)
      simpa [dictSet_dictSet] using e
    have e4 : login { st with attempts := dictSet st.attempts (strLower username) ⟨3, none⟩ }
        t4 tok username password =
        (.httpError 401 "Invalid username or password",
         { st with attempts := dictSet st.attempts (strLower username) ⟨4, none⟩ }) := by
      have e := login_fail_count
        { st with attempts := dictSet st.attempts (strLower username) ⟨3, none⟩ }
        t4 tok username password 3 (by omega) (by simp [dictSet]) (hauth _)
      simpa [dictSet_dictSet] using e
    have e5 : login { st with attempts := dictSet st.attempts (strLower username) ⟨4, none⟩ }
        t5 tok username password =
        (.httpError 403 "Too many failed login attempts. Account locked for 10 minutes.",
         { st with attempts :=
            dictSet st.attempts (strLower username) ⟨5, some (t5 + 600)⟩ }) := by
      have e := login_fail_lock
        { st with attempts := dictSet st.attempts (strLower username) ⟨4, none⟩ }
        t5 tok username password 4 (by omega) (by simp [dictSet]) (hauth _)
      simpa [dictSet_dictSet] using e
    simp [e1, e2, e3, e4, e5, dictSet]
  · intro st username password tok now t c h hnow
    simp [login, h, hnow]
  · intro st username password tok now t c u h ht hfind hact hpw
    have hauth : authenticate st.store username password (toString now) =
        (.ok (some u),
         log_activity (update_last_login st.store u.user_ID (toString now))
           u.user_ID "LOGIN" "User logged in" (toString now)) := by
      simp [authenticate, hfind, hact, verify_password, hpw, checkpw_hashpw_self]
    constructor
    · simp [login, h, Nat.not_lt.mpr ht, loginAuth, hauth, hact]
    · simp [login, h, Nat.not_lt.mpr ht, loginAuth, hauth, hact, dictPop]

/-- Witness for C1: concrete five-failure lockout for "alice" at times
1..5, a rejected attempt at time 100 during the window, and a successful
record-clearing login at time 700 after the window. -/
theorem C1_login_lockout_witness :
    ((login (login (login (login (login lockoutStart 1 "tok" "alice" "bad").2
        2 "tok" "alice" "bad").2 3 "tok" "alice" "bad").2
        4 "tok" "alice" "bad").2 5 "tok" "alice" "bad").1 =
      .httpError 403 "Too many failed login attempts. Account locked for 10 minutes." ∧
     (login (login (login (login (login lockoutStart 1 "tok" "alice" "bad").2
        2 "tok" "alice" "bad").2 3 "tok" "alice" "bad").2
        4 "tok" "alice" "bad").2 5 "tok" "alice" "bad").2.attempts (strLower "alice") =
      some ⟨5, some (5 + 600)⟩) ∧
    (login lockoutLocked 100 "tok" "alice" "anything" =
      (.httpError 403 ("Account locked due to too many failed attempts. Try again in " ++
         toString ((605 - 100) / 60) ++ " minutes."), lockoutLocked)) ∧
    ((login lockoutLocked 700 "tok" "alice" "alicepw").1 =
      .success aliceAdmin "tok" (700 + 28800) ∧
     (login lockoutLocked 700 "tok" "alice" "alicepw").2.attempts (strLower "alice") = none) :=
  ⟨C1_login_lockout.1 lockoutStart "alice" "bad" "tok" 1 2 3 4 5 rfl (fun _ => rfl),
   C1_login_lockout.2.1 lockoutLocked "alice" "anything" "tok" 100 605 5 (by decide) (by omega),
   C1_login_lockout.2.2 lockoutLocked "alice" "alicepw" "tok" 700 605 5 aliceAdmin
     (by decide) (by omega) (by decide) rfl rfl⟩

/-- Claim C6 (amended): in `authenticate` the account-status check PRECEDES
password verification — a non-Active first-matching account is rejected with
`PermissionError "Account is locked or suspended."` for every password, and
the login endpoint surfaces this as 500 "Login failed: ..." revealing the
status; an unknown username yields the generic failure. -/
theorem C6_status_checked_before_password :
    (∀ (store : Store) (username password nowStr : String) (u : User),
      findFirstUsername store.users username = some u →
      u.account_Status ≠ "Active" →
      authenticate store username password nowStr =
        (.error (.permissionError "Account is locked or suspended."), store)) ∧
    (∀ (store : Store) (username password nowStr : String),
      findFirstUsername store.users username = none →
      authenticate store username password nowStr = (.ok none, store)) ∧
    (∀ (st : ServerState) (now : Nat) (tok username password : String) (u : User),
      st.attempts (strLower username) = none →
      findFirstUsername st.store.users username = some u →
      u.account_Status ≠ "Active" →
      login st now tok username password =
        (.httpError 500 "Login failed: Account is locked or suspended.", st)) := by
  refine ⟨?_, ?_, ?_⟩
  · intro store username password nowStr u hfind hstat
    simp [authenticate, hfind, hstat]
  · intro store username password nowStr hfind
    simp [authenticate, hfind]
  · intro st now tok username password u h hfind hstat
    simp [login, h, loginAuth, authenticate, hfind, hstat]

/-- Counterexample to claim C6 as stated: a wrong password presented for the
suspended account "sam" does NOT yield the generic invalid-credentials
failure — the login endpoint answers 500 with the status-revealing message,
so the status is disclosed without the correct password. -/
theorem C6_counterexample :
    (login suspendedLoginState 0 "tok" "sam" "wrongpw").1 =
      .httpError 500 "Login failed: Account is locked or suspended." ∧
    (login suspendedLoginState 0 "tok" "sam" "wrongpw").1 ≠
      .httpError 401 "Invalid username or password" := by
  exact ⟨by decide, by decide⟩

/-- Witness for C6 at concrete inputs. -/
theorem C6_status_checked_before_password_witness :
    authenticate { users := [samSuspended], logs := [] } "sam" "wrongpw" "0" =
      (.error (.permissionError "Account is locked or suspended."),
       { users := [samSuspended], logs := [] }) ∧
    authenticate { users := [samSuspended], logs := [] } "ghost" "pw" "0" =
      (.ok none, { users := [samSuspended], logs := [] }) ∧
    login suspendedLoginState 0 "tok" "sam" "wrongpw" =
      (.httpError 500 "Login failed: Account is locked or suspended.", suspendedLoginState) :=
  ⟨C6_status_checked_before_password.1 _ "sam" "wrongpw" "0" samSuspended (by decide) (by decide),
   C6_status_checked_before_password.2.1 _ "ghost" "pw" "0" (by decide),
   C6_status_checked_before_password.2.2 suspendedLoginState 0 "tok" "sam" "wrongpw"
     samSuspended rfl (by decide) (by decide)⟩

/-- Sessions fixture for C7: one session for "tokA", expired at 100. -/
def expiredSessions : List (String × Session) :=
  [("tokA", { user := aliceAdmin, expires_at := 100, created_at := 0 })]

/-- Claim C7 (amended): an expired session is purged and rejected with the
same error KIND (401) as an unknown token, but the two paths carry DISTINCT
detail messages ("Session expired" vs "Invalid or expired session"), so
validation does reveal whether the token once existed. -/
theorem C7_expired_vs_unknown_token :
    (∀ (sessions : List (String × Session)) (token : String) (s : Session) (now : Nat),
      alistFind sessions token = some s → s.expires_at < now →
      get_current_user_token sessions (some token) now =
        (.httpError 401 "Session expired", alistErase sessions token)) ∧
    (∀ (sessions : List (String × Session)) (token : String) (now : Nat),
      alistFind sessions token = none →
      get_current_user_token sessions (some token) now =
        (.httpError 401 "Invalid or expired session", sessions)) ∧
    ("Session expired" : String) ≠ "Invalid or expired session" := by
  refine ⟨?_, ?_, by decide⟩
  · intro sessions token s now hfind hexp
    simp [get_current_user_token, hfind, hexp]
  · intro sessions token now hfind
    simp [get_current_user_token, hfind]

/-- Counterexample to claim C7 as stated: validating the expired token
"tokA" and the never-existing token "zzz" produce DIFFERENT observable
messages, so the two outcomes are not indistinguishable. -/
theorem C7_counterexample :
    get_current_user_token expiredSessions (some "tokA") 200 =
      (.httpError 401 "Session expired", []) ∧
    get_current_user_token expiredSessions (some "zzz") 200 =
      (.httpError 401 "Invalid or expired session", expiredSessions) ∧
    ("Session expired" : String) ≠ "Invalid or expired session" := by
  refine ⟨by decide, by decide, by decide⟩

/-- Witness for C7 at concrete inputs. -/
theorem C7_expired_vs_unknown_token_witness :
    get_current_user_token expiredSessions (some "tokA") 200 =
      (.httpError 401 "Session expired", alistErase expiredSessions "tokA") ∧
    get_current_user_token expiredSessions (some "zzz") 200 =
      (.httpError 401 "Invalid or expired session", expiredSessions) :=
  ⟨C7_expired_vs_unknown_token.1 expiredSessions "tokA" ⟨aliceAdmin, 100, 0⟩ 200
     (by decide) (by decide),
   C7_expired_vs_unknown_token.2.1 expiredSessions "zzz" 200 (by decide)⟩

/-- Claim C8: evaluation of the code at the failing input.  `verify_password`
forwards a malformed (here: empty) stored hash straight to the bcrypt
library, which raises `ValueError "Invalid salt"`; `authenticate` propagates
the exception, and the login endpoint surfaces it as a 500 whose message
names the hash-format problem — the code does NOT fail closed as the claim
requires. -/
theorem C8_verify_password_raises_on_malformed_hash :
    verify_password "x" "" = .error "Invalid salt" ∧
    (authenticate { users := [malloryEmptyHash], logs := [] } "mallory" "x" "0").1 =
      .error (.valueError "Invalid salt") ∧
    (login { store := { users := [malloryEmptyHash], logs := [] }, sessions := [],
             attempts := fun _ => none } 0 "tok" "mallory" "x").1 =
      .httpError 500 "Login failed: Invalid salt" := by
  refine ⟨rfl, rfl, rfl⟩

/-- Claim C3: for an Admin caller, self-deletion fails with Forbidden;
deleting an Admin target while exactly one Admin-role user exists (status
ignored) fails with Forbidden; and when the target exists, is not the
caller, and at least two Admin-role users exist, deletion succeeds and
removes the target's row. -/
theorem C3_delete_user_guards :
    (∀ (store : Store) (a : User) (nowStr : String), a.role = "Admin" →
      delete_user store (some a) a.user_ID nowStr =
        (.error (.permissionError "Cannot delete yourself."), store)) ∧
    (∀ (store : Store) (a : User) (user_id nowStr : String) (t : User),
      a.role = "Admin" → a.user_ID ≠ user_id →
      get_user_by_id store user_id = some t → t.role = "Admin" →
      store.users.countP (fun u => u.role == "Admin") = 1 →
      delete_user store (some a) user_id nowStr =
        (.error (.permissionError "Cannot delete the last admin account."), store)) ∧
    (∀ (store : Store) (a : User) (user_id nowStr : String) (t : User),
      a.role = "Admin" → a.user_ID ≠ user_id →
      get_user_by_id store user_id = some t →
      2 ≤ store.users.countP (fun u => u.role == "Admin") →
      (delete_user store (some a) user_id nowStr).1 =
        .ok ("User " ++ t.username ++ " deleted") ∧
      (delete_user store (some a) user_id nowStr).2.users =
        removeFirstById store.users user_id) := by
  refine ⟨?_, ?_, ?_⟩
  · intro store a nowStr hrole
    simp [delete_user, hrole]
  · intro store a user_id nowStr t hrole hne hfind htrole hcount
    simp [delete_user, hrole, hne, hfind, htrole, hcount]
  · intro store a user_id nowStr t hrole hne hfind hcount
    have hfind' : store.users.find? (fun u => u.user_ID == user_id) = some t := hfind
    have hnotle : ¬ store.users.countP (fun u => u.role == "Admin") ≤ 1 := by omega
    constructor <;>
      simp [delete_user, db_delete_user, hrole, hne, hfind, hfind', hnotle, log_activity]

/-- Witness for C3 at concrete stores. -/
theorem C3_delete_user_guards_witness :
    delete_user { users := [aliceAdmin, bobStaff], logs := [] } (some aliceAdmin)
        aliceAdmin.user_ID "0" =
      (.error (.permissionError "Cannot delete yourself."),
       { users := [aliceAdmin, bobStaff], logs := [] }) ∧
    delete_user { users := [aliceAdmin], logs := [] } (some carolAdmin) "USR001" "0" =
      (.error (.permissionError "Cannot delete the last admin account."),
       { users := [aliceAdmin], logs := [] }) ∧
    ((delete_user { users := [aliceAdmin, danAdmin], logs := [] } (some aliceAdmin)
        "USR003" "0").1 = .ok ("User " ++ danAdmin.username ++ " deleted") ∧
     (delete_user { users := [aliceAdmin, danAdmin], logs := [] } (some aliceAdmin)
        "USR003" "0").2.users = removeFirstById [aliceAdmin, danAdmin] "USR003") :=
  ⟨C3_delete_user_guards.1 _ aliceAdmin "0" rfl,
   C3_delete_user_guards.2.1 _ carolAdmin "USR001" "0" aliceAdmin rfl (by decide)
     (by decide) rfl (by decide),
   C3_delete_user_guards.2.2 _ aliceAdmin "USR003" "0" danAdmin rfl (by decide)
     (by decide) (by decide)⟩

/-- Claim C2 (amended): what the code actually preserves is Admin-ROLE
presence across `delete_user` (any call, successful or not): if some user
with role Admin was in the store, some user with role Admin remains.  The
Active-Admin invariant of the claim does not hold — `update_user` can
demote or suspend the sole Active Admin, and the delete guard counts Admins
regardless of status (see the counterexample). -/
theorem C2_delete_preserves_admin_presence :
    ∀ (store : Store) (caller : Option User) (user_id nowStr : String),
      (∃ u ∈ store.users, u.role = "Admin") →
      ∃ u ∈ (delete_user store caller user_id nowStr).2.users, u.role = "Admin" := by
  intro store caller user_id nowStr h
  rcases caller with _ | a
  · simpa [delete_user] using h
  by_cases hrole : a.role ≠ "Admin"
  · simpa [delete_user, hrole] using h
  by_cases hself : a.user_ID = user_id
  · simpa [delete_user, hrole, hself] using h
  rcases hfind : get_user_by_id store user_id with _ | t
  · simpa [delete_user, hrole, hself, hfind] using h
  by_cases hguard : t.role = "Admin" ∧ store.users.countP (fun u => u.role == "Admin") ≤ 1
  · simpa [delete_user, hrole, hself, hfind, hguard] using h
  have hfind' : store.users.find? (fun u => u.user_ID == user_id) = some t := hfind
  obtain ⟨l1, l2, hsplit, hl1, hid, -, hrem⟩ := firstById_split hfind'
  have hres : (delete_user store (some a) user_id nowStr).2.users = l1 ++ l2 := by
    simp [delete_user, db_delete_user, hrole, hself, hfind, hfind', hguard, log_activity, hrem]
  rw [hres]
  by_cases htrole : t.role = "Admin"
  · have hcount : ¬ store.users.countP (fun u => u.role == "Admin") ≤ 1 :=
      fun hle => hguard ⟨htrole, hle⟩
    have hsum : store.users.countP (fun u => u.role == "Admin") =
        l1.countP (fun u => u.role == "Admin") +
          (l2.countP (fun u => u.role == "Admin") + 1) := by
      rw [hsplit, List.countP_append, List.countP_cons]
      simp [htrole]
    have hpos : 0 < (l1 ++ l2).countP (fun u => u.role == "Admin") := by
      rw [List.countP_append]; omega
    obtain ⟨w, hw, hwp⟩ := List.countP_pos_iff.mp hpos
    exact ⟨w, hw, by simpa using hwp⟩
  · obtain ⟨w, hw, hwrole⟩ := h
    rw [hsplit] at hw
    rcases List.mem_append.mp hw with hw1 | hw2
    · exact ⟨w, List.mem_append.mpr (Or.inl hw1), hwrole⟩
    · rcases List.mem_cons.mp hw2 with rfl | hw3
      · exact absurd hwrole htrole
      · exact ⟨w, List.mem_append.mpr (Or.inr hw3), hwrole⟩

/-- The record "alice" after suspending herself. -/
def aliceSuspended : User := { aliceAdmin with account_Status := "Suspended" }

/-- Counterexample to claim C2 as stated: (1) the sole Active Admin "alice"
suspends herself through `update_user`, which succeeds and leaves the store
with no user that is both role Admin and status Active; (2) the SUSPENDED
Admin "bobadm" (counted by the delete guard, which ignores status) deletes
the only Active Admin "alice", which succeeds and likewise leaves no Active
Admin. -/
theorem C2_counterexample :
    ((update_user { users := [aliceAdmin], logs := [] } (some aliceAdmin) "USR001"
        none none none (some "Suspended") "1").1 = .ok (some aliceSuspended) ∧
     ([aliceAdmin].any (fun u => u.role == "Admin" && u.account_Status == "Active") = true) ∧
     ((update_user { users := [aliceAdmin], logs := [] } (some aliceAdmin) "USR001"
        none none none (some "Suspended") "1").2.users.any
          (fun u => u.role == "Admin" && u.account_Status == "Active") = false)) ∧
    ((delete_user { users := [aliceAdmin, bobAdminSuspended], logs := [] }
        (some bobAdminSuspended) "USR001" "1").1 = .ok "User alice deleted" ∧
     ([aliceAdmin, bobAdminSuspended].any
        (fun u => u.role == "Admin" && u.account_Status == "Active") = true) ∧
     ((delete_user { users := [aliceAdmin, bobAdminSuspended], logs := [] }
        (some bobAdminSuspended) "USR001" "1").2.users.any
          (fun u => u.role == "Admin" && u.account_Status == "Active") = false)) := by
  exact ⟨⟨rfl, rfl, rfl⟩, ⟨rfl, rfl, rfl⟩⟩

/-- Witness for C2 (amended) at a concrete store. -/
theorem C2_delete_preserves_admin_presence_witness :
    ∃ u ∈ (delete_user { users := [aliceAdmin, danAdmin], logs := [] }
        (some aliceAdmin) "USR003" "0").2.users, u.role = "Admin" :=
  C2_delete_preserves_admin_presence _ (some aliceAdmin) "USR003" "0"
    ⟨aliceAdmin, by simp, rfl⟩

/-- Claim C4: `initial_setup` on an empty directory succeeds and the created
user has role Admin (and creator sentinel SYSTEM_INIT); `create_user` with a
non-empty directory and a non-Admin (or absent) caller fails Forbidden with
the store unchanged; `create_user` with an Admin caller and a username that
collides case-insensitively fails Conflict with the store unchanged. -/
theorem C4_create_user_guards :
    (∀ (store : Store) (username email password nowStr : String),
      store.users = [] →
      (initial_setup store username email password nowStr).1 =
        .ok { user_ID := "USR001", username := username, email := email,
              password_Hash := hash_password password, role := "Admin",
              created_Date := nowStr, last_Login := "", account_Status := "Active",
              created_By := "SYSTEM_INIT", notes := "" }) ∧
    (∀ (store : Store) (creator : Option User) (username password role email nowStr : String),
      store.users ≠ [] → creatorNotAdmin creator = true →
      create_user store creator username password role email nowStr =
        (.error (.permissionError "Only Admins can create new users."), store)) ∧
    (∀ (store : Store) (a : User) (username password role email nowStr : String) (w : User),
      a.role = "Admin" → w ∈ store.users → strLower w.username = strLower username →
      create_user store (some a) username password role email nowStr =
        (.error (.valueError ("Username \x27" ++ username ++ "\x27 already exists.")),
         store)) := by
  refine ⟨?_, ?_, ?_⟩
  · intro store username email password nowStr h
    simp [initial_setup, create_user, h, generate_user_id, creatorNotAdmin, hash_password]
  · intro store creator username password role email nowStr hne hnadmin
    have hemp : store.users.isEmpty = false := by
      cases hh : store.users with
      | nil => exact absurd hh hne
      | cons x xs => simp [List.isEmpty]
    simp [create_user, hemp, hnadmin]
  · intro store a username password role email nowStr w hrole hw hcoll
    have hany : store.users.any (fun u => strLower u.username == strLower username) = true :=
      List.any_eq_true.mpr ⟨w, hw, by simp [hcoll]⟩
    simp [create_user, creatorNotAdmin, hrole, hany]

/-- Witness for C4 at concrete stores. -/
theorem C4_create_user_guards_witness :
    (initial_setup { users := [], logs := [] } "root" "r@x" "rootpw" "0").1 =
      .ok { user_ID := "USR001", username := "root", email := "r@x",
            password_Hash := hash_password "rootpw", role := "Admin",
            created_Date := "0", last_Login := "", account_Status := "Active",
            created_By := "SYSTEM_INIT", notes := "" } ∧
    create_user { users := [aliceAdmin], logs := [] } (some bobStaff)
        "eve" "pw" "Staff" "" "0" =
      (.error (.permissionError "Only Admins can create new users."),
       { users := [aliceAdmin], logs := [] }) ∧
    create_user { users := [aliceAdmin], logs := [] } (some aliceAdmin)
        "ALICE" "pw" "Staff" "" "0" =
      (.error (.valueError ("Username \x27ALICE\x27 already exists.")),
       { users := [aliceAdmin], logs := [] }) :=
  ⟨C4_create_user_guards.1 _ "root" "r@x" "rootpw" "0" rfl,
   C4_create_user_guards.2.1 _ (some bobStaff) "eve" "pw" "Staff" "" "0" (by decide) rfl,
   C4_create_user_guards.2.2 _ aliceAdmin "ALICE" "pw" "Staff" "" "0" aliceAdmin rfl
     (by simp) (by decide)⟩

/-- Claim C5 (amended): logout removes the FIRST-inserted session whose
identity snapshot carries the caller's User_ID — not necessarily the session
bound to the presented token.  When the presented token's session is the
only session of that identity, logout does remove exactly that session and
an immediate re-validation of the token fails 401; once a token's own
session is gone, a repeated logout with that token is rejected 401 by the
bearer-token guard rather than accepted idempotently. -/
theorem C5_logout_removes_first_matching_session :
    (∀ (sessions : List (String × Session)) (token : String) (s : Session) (now : Nat)
       (pr : String × Session),
      alistFind sessions token = some s → now ≤ s.expires_at →
      sessions.find? (fun p => p.2.user.user_ID == s.user.user_ID) = some pr →
      logout sessions (some token) now = (.success, alistErase sessions pr.1)) ∧
    (∀ (sessions : List (String × Session)) (token : String) (s : Session) (now : Nat),
      (sessions.map Prod.fst).Nodup →
      alistFind sessions token = some s → now ≤ s.expires_at →
      (∀ p ∈ sessions, p.2.user.user_ID = s.user.user_ID → p.1 = token) →
      logout sessions (some token) now = (.success, alistErase sessions token) ∧
      (get_current_user_token (alistErase sessions token) (some token) now).1 =
        .httpError 401 "Invalid or expired session") := by
  constructor
  · intro sessions token s now pr hfind hexp hfirst
    simp [logout, get_current_user_token_ok sessions token s now hfind hexp, hfirst]
  · intro sessions token s now hnodup hfind hexp huniq
    obtain ⟨q, hq, hqk, hqs⟩ : ∃ q ∈ sessions, q.1 = token ∧ q.2 = s := by
      rcases hq : sessions.find? (fun p => p.1 == token) with _ | q
      · simp [alistFind, hq] at hfind
      · have h1 : q.2 = s := by simpa [alistFind, hq] using hfind
        exact ⟨q, List.mem_of_find?_eq_some hq, by simpa using List.find?_some hq, h1⟩
    have hissome : (sessions.find? (fun p => p.2.user.user_ID == s.user.user_ID)).isSome := by
      rw [List.find?_isSome]
      exact ⟨q, hq, by simp [hqs]⟩
    obtain ⟨pr, hpr⟩ := Option.isSome_iff_exists.mp hissome
    have hprtok : pr.1 = token :=
      huniq pr (List.mem_of_find?_eq_some hpr) (by simpa using List.find?_some hpr)
    have hlogout : logout sessions (some token) now = (.success, alistErase sessions pr.1) := by
      simp [logout, get_current_user_token_ok sessions token s now hfind hexp, hpr]
    rw [hprtok] at hlogout
    refine ⟨hlogout, ?_⟩
    have hnone : alistFind (alistErase sessions token) token = none :=
      alistFind_erase_self sessions token hnodup
    simp [get_current_user_token, hnone]

/-- Two simultaneous sessions of the same identity ("alice"), inserted as
"t1" then "t2", both unexpired at time 10. -/
def twoSessionsAlice : List (String × Session) :=
  [("t1", ⟨aliceAdmin, 1000, 0⟩), ("t2", ⟨aliceAdmin, 1000, 0⟩)]

/-- Counterexample to claim C5 as stated: with two simultaneous sessions for
"alice", logging out with the valid token "t2" removes the session of "t1";
the session bound to "t2" itself survives and immediately re-validates
successfully.  Furthermore, once a token's own session is removed, a
repeated logout with that token is rejected 401 — not an accepted no-op. -/
theorem C5_counterexample :
    logout twoSessionsAlice (some "t2") 10 =
      (.success, [("t2", (⟨aliceAdmin, 1000, 0⟩ : Session))]) ∧
    get_current_user_token [("t2", (⟨aliceAdmin, 1000, 0⟩ : Session))] (some "t2") 10 =
      (.ok aliceAdmin, [("t2", (⟨aliceAdmin, 1000, 0⟩ : Session))]) ∧
    logout [("t1", (⟨aliceAdmin, 1000, 0⟩ : Session))] (some "t1") 10 = (.success, []) ∧
    logout [] (some "t1") 10 = (.httpError 401 "Invalid or expired session", []) := by
  exact ⟨rfl, rfl, rfl, rfl⟩

/-- Witness for C5 (amended) at concrete session tables. -/
theorem C5_logout_removes_first_matching_session_witness :
    logout twoSessionsAlice (some "t2") 10 = (.success, alistErase twoSessionsAlice "t1") ∧
    (logout [("t1", (⟨aliceAdmin, 1000, 0⟩ : Session))] (some "t1") 10 =
      (.success, alistErase [("t1", (⟨aliceAdmin, 1000, 0⟩ : Session))] "t1") ∧
     (get_current_user_token (alistErase [("t1", (⟨aliceAdmin, 1000, 0⟩ : Session))] "t1")
        (some "t1") 10).1 = .httpError 401 "Invalid or expired session") :=
  ⟨C5_logout_removes_first_matching_session.1 twoSessionsAlice "t2" ⟨aliceAdmin, 1000, 0⟩ 10
     ("t1", ⟨aliceAdmin, 1000, 0⟩) (by decide) (by decide) (by decide),
   C5_logout_removes_first_matching_session.2 [("t1", ⟨aliceAdmin, 1000, 0⟩)] "t1"
     ⟨aliceAdmin, 1000, 0⟩ 10 (by simp) (by decide) (by decide)
     (fun p hp _ => by rcases List.mem_singleton.mp hp with rfl; rfl)⟩

/-- The store carried by the state that `loginAuth` returns is exactly the
store returned by `authenticate`, so the login endpoint's Activity Log
output is authenticate's (the failure-tracking path touches only the
in-memory attempts table). -/
theorem loginAuth_store_logs (st : ServerState) (now : Nat) (tok username password : String) :
    (loginAuth st now tok username password).2.store.logs =
      (authenticate st.store username password (toString now)).2.logs := by
  unfold loginAuth
  rcases hA : authenticate st.store username password (toString now) with ⟨res, store1⟩
  rcases res with e | ou
  · rcases e with m | m <;> rfl
  · rcases ou with _ | u
    · simp only [loginFailTrack]
      split <;> rfl
    · by_cases hst : u.account_Status ≠ "Active" <;> simp [hst]

/-- The only Activity Log entry `authenticate` can append: the fixed LOGIN
entry of the matched user — every field is determined by the matched record
and the clock, independent of the password argument. -/
theorem authenticate_logs_spec (store : Store) (username password nowStr : String) :
    (authenticate store username password nowStr).2.logs = store.logs ∨
      ∃ u, findFirstUsername store.users username = some u ∧
        (authenticate store username password nowStr).2.logs = store.logs ++
          [{ log_ID := "LOG" ++ nowStr, user_ID := u.user_ID, action := "LOGIN",
             timestamp := nowStr, details := "User logged in" }] := by
  rcases hf : findFirstUsername store.users username with _ | u
  · left
    simp [authenticate, hf]
  · by_cases hstat : u.account_Status ≠ "Active"
    · left
      simp [authenticate, hf, hstat]
    · rcases hv : verify_password password u.password_Hash with e | b
      · left
        simp [authenticate, hf, hstat, hv]
      · cases b
        · left
          simp [authenticate, hf, hstat, hv]
        · right
          exact ⟨u, rfl,
            by simp [authenticate, hf, hstat, hv, log_activity, update_last_login]⟩

/-- The only Activity Log entry `change_password` can append: the fixed
CHANGE_PASSWORD entry of the acting user, independent of BOTH the current
and the new password argument. -/
theorem change_password_logs_spec (store : Store) (user : User) (cur npw nowStr : String) :
    (change_password store user cur npw nowStr).2.logs = store.logs ∨
      (change_password store user cur npw nowStr).2.logs = store.logs ++
        [{ log_ID := "LOG" ++ nowStr, user_ID := user.user_ID, action := "CHANGE_PASSWORD",
           timestamp := nowStr, details := "User changed their own password" }] := by
  rcases hv : verify_password cur user.password_Hash with e | b
  · left
    simp [change_password, hv]
  · cases b
    · left
      simp [change_password, hv]
    · rcases hf : store.users.find? (fun v => v.user_ID == user.user_ID) with _ | t
      · left
        simp [change_password, hv, db_update_user_password, hf]
      · right
        simp [change_password, hv, db_update_user_password, hf, log_activity]

/-- Claim C9 (amended): no auth operation writes a password into the
Activity Log.  The log output of `reset_user_password` and `create_user` is
invariant under their password argument; `authenticate` — and through it
the login endpoint — appends at most the fixed LOGIN entry of the matched
user, and `change_password` at most the fixed CHANGE_PASSWORD entry of the
acting user, each entry fully characterized and independent of every
password argument (`update_user`/`delete_user` receive no password at all).
But `reset_user_password` DOES transmit the plaintext back to its caller,
in the `temporary_password` field of every successful result. -/
theorem C9_no_password_in_logs_but_reset_returns_plaintext :
    (∀ (store : Store) (admin : Option User) (uid pw1 pw2 nowStr : String),
      (reset_user_password store admin uid pw1 nowStr).2.logs =
        (reset_user_password store admin uid pw2 nowStr).2.logs) ∧
    (∀ (store : Store) (creator : Option User) (username pw1 pw2 role email nowStr : String),
      (create_user store creator username pw1 role email nowStr).2.logs =
        (create_user store creator username pw2 role email nowStr).2.logs) ∧
    (∀ (store : Store) (username password nowStr : String),
      (authenticate store username password nowStr).2.logs = store.logs ∨
        ∃ u, findFirstUsername store.users username = some u ∧
          (authenticate store username password nowStr).2.logs = store.logs ++
            [{ log_ID := "LOG" ++ nowStr, user_ID := u.user_ID, action := "LOGIN",
               timestamp := nowStr, details := "User logged in" }]) ∧
    (∀ (st : ServerState) (now : Nat) (tok username password : String),
      (login st now tok username password).2.store.logs = st.store.logs ∨
        ∃ u, findFirstUsername st.store.users username = some u ∧
          (login st now tok username password).2.store.logs = st.store.logs ++
            [{ log_ID := "LOG" ++ toString now, user_ID := u.user_ID, action := "LOGIN",
               timestamp := toString now, details := "User logged in" }]) ∧
    (∀ (store : Store) (user : User) (cur npw nowStr : String),
      (change_password store user cur npw nowStr).2.logs = store.logs ∨
        (change_password store user cur npw nowStr).2.logs = store.logs ++
          [{ log_ID := "LOG" ++ nowStr, user_ID := user.user_ID, action := "CHANGE_PASSWORD",
             timestamp := nowStr, details := "User changed their own password" }]) ∧
    (∀ (store : Store) (admin : Option User) (uid newpw nowStr : String) (r : ResetResult)
       (s2 : Store),
      reset_user_password store admin uid newpw nowStr = (.ok r, s2) →
      r.temporary_password = newpw) := by
  refine ⟨?_, ?_, authenticate_logs_spec, ?_, change_password_logs_spec, ?_⟩
  · intro store admin uid pw1 pw2 nowStr
    rcases admin with _ | a
    · rfl
    by_cases hrole : a.role ≠ "Admin"
    · simp [reset_user_password, hrole]
    rcases hfind : get_user_by_id store uid with _ | t
    · simp [reset_user_password, hrole, hfind]
    have hfind' : store.users.find? (fun u => u.user_ID == uid) = some t := hfind
    simp [reset_user_password, hrole, hfind, db_update_user_password, hfind', log_activity]
  · intro store creator username pw1 pw2 role email nowStr
    unfold create_user
    split
    · rfl
    · split
      · rfl
      · rfl
  · intro st now tok username password
    have hbase := authenticate_logs_spec st.store username password (toString now)
    rcases hatt : st.attempts (strLower username) with _ | ad
    · have h1 : login st now tok username password =
          loginAuth st now tok username password := by
        simp [login, hatt]
      rw [h1, loginAuth_store_logs]
      exact hbase
    · rcases had : ad.locked_until with _ | t
      · have h1 : login st now tok username password =
            loginAuth st now tok username password := by
          simp [login, hatt, had]
        rw [h1, loginAuth_store_logs]
        exact hbase
      · by_cases hlt : now < t
        · left
          simp [login, hatt, had, hlt]
        · have h1 : login st now tok username password =
              loginAuth { st with attempts := dictPop st.attempts (strLower username) }
                now tok username password := by
            simp [login, hatt, had, hlt]
          rw [h1, loginAuth_store_logs]
          exact hbase
  · intro store admin uid newpw nowStr r s2 h
    rcases admin with _ | a
    · simp [reset_user_password] at h
    by_cases hrole : a.role ≠ "Admin"
    · simp [reset_user_password, hrole] at h
    rcases hfind : get_user_by_id store uid with _ | t
    · simp [reset_user_password, hrole, hfind] at h
    rcases hdb : db_update_user_password store uid (hash_password newpw) with e | s1
    · simp [reset_user_password, hrole, hfind, hdb] at h
    · simp [reset_user_password, hrole, hfind, hdb] at h
      rcases h with ⟨h1, -⟩
      rw [← h1]

/-- Counterexample to claim C9 as stated: the admin password-reset returns
the new plaintext password ("hunter2") to the caller in the
`temporary_password` field of its result. -/
theorem C9_counterexample :
    (reset_user_password { users := [aliceAdmin, bobStaff], logs := [] } (some aliceAdmin)
        "USR002" "hunter2" "0").1 =
      .ok { status := "success", message := "Password reset for bob",
            temporary_password := "hunter2" } := by
  rfl

/-- Witness for C9 (amended) at concrete inputs, one per operation. -/
theorem C9_no_password_in_logs_witness :
    (reset_user_password { users := [aliceAdmin, bobStaff], logs := [] } (some aliceAdmin)
        "USR002" "pw1" "0").2.logs =
      (reset_user_password { users := [aliceAdmin, bobStaff], logs := [] } (some aliceAdmin)
        "USR002" "pw2" "0").2.logs ∧
    (create_user { users := [aliceAdmin], logs := [] } (some aliceAdmin)
        "zoe" "p1" "Staff" "" "0").2.logs =
      (create_user { users := [aliceAdmin], logs := [] } (some aliceAdmin)
        "zoe" "p2" "Staff" "" "0").2.logs ∧
    ((authenticate { users := [aliceAdmin], logs := [] } "alice" "secret" "7").2.logs =
        ({ users := [aliceAdmin], logs := [] } : Store).logs ∨
      ∃ u, findFirstUsername ({ users := [aliceAdmin], logs := [] } : Store).users "alice"
          = some u ∧
        (authenticate { users := [aliceAdmin], logs := [] } "alice" "secret" "7").2.logs =
          ({ users := [aliceAdmin], logs := [] } : Store).logs ++
            [{ log_ID := "LOG" ++ "7", user_ID := u.user_ID, action := "LOGIN",
               timestamp := "7", details := "User logged in" }]) ∧
    ((login lockoutStart 0 "tok" "alice" "secret").2.store.logs = lockoutStart.store.logs ∨
      ∃ u, findFirstUsername lockoutStart.store.users "alice" = some u ∧
        (login lockoutStart 0 "tok" "alice" "secret").2.store.logs =
          lockoutStart.store.logs ++
            [{ log_ID := "LOG" ++ toString 0, user_ID := u.user_ID, action := "LOGIN",
               timestamp := toString 0, details := "User logged in" }]) ∧
    ((change_password { users := [bobStaff], logs := [] } bobStaff "wrong" "n1" "0").2.logs =
        ({ users := [bobStaff], logs := [] } : Store).logs ∨
      (change_password { users := [bobStaff], logs := [] } bobStaff "wrong" "n1" "0").2.logs =
        ({ users := [bobStaff], logs := [] } : Store).logs ++
          [{ log_ID := "LOG" ++ "0", user_ID := bobStaff.user_ID,
             action := "CHANGE_PASSWORD", timestamp := "0",
             details := "User changed their own password" }]) ∧
    ({ status := "success", message := "Password reset for bob",
       temporary_password := "hunter2" } : ResetResult).temporary_password = "hunter2" :=
  ⟨C9_no_password_in_logs_but_reset_returns_plaintext.1
     { users := [aliceAdmin, bobStaff], logs := [] } (some aliceAdmin) "USR002"
     "pw1" "pw2" "0",
   C9_no_password_in_logs_but_reset_returns_plaintext.2.1
     { users := [aliceAdmin], logs := [] } (some aliceAdmin) "zoe"
     "p1" "p2" "Staff" "" "0",
   C9_no_password_in_logs_but_reset_returns_plaintext.2.2.1
     { users := [aliceAdmin], logs := [] } "alice" "secret" "7",
   C9_no_password_in_logs_but_reset_returns_plaintext.2.2.2.1
     lockoutStart 0 "tok" "alice" "secret",
   C9_no_password_in_logs_but_reset_returns_plaintext.2.2.2.2.1
     { users := [bobStaff], logs := [] } bobStaff "wrong" "n1" "0",
   C9_no_password_in_logs_but_reset_returns_plaintext.2.2.2.2.2
     { users := [aliceAdmin, bobStaff], logs := [] } (some aliceAdmin) "USR002" "hunter2" "0"
     { status := "success", message := "Password reset for bob",
       temporary_password := "hunter2" }
     (reset_user_password { users := [aliceAdmin, bobStaff], logs := [] } (some aliceAdmin)
        "USR002" "hunter2" "0").2 rfl⟩

/-- `applyUserUpdates` written as a single record update: username, role
and status are applied only when present AND non-empty; email is applied
whenever present, including the empty string. -/
theorem applyUserUpdates_eq (un em rl stt : Option String) (u : User) :
    applyUserUpdates un em rl stt u =
      { u with
        username := (match un with
          | some s => if s ≠ "" then s else u.username
          | none => u.username),
        email := (match em with | some s => s | none => u.email),
        role := (match rl with
          | some s => if s ≠ "" then s else u.role
          | none => u.role),
        account_Status := (match stt with
          | some s => if s ≠ "" then s else u.account_Status
          | none => u.account_Status) } := by
  rcases un with _ | s <;> rcases em with _ | e <;> rcases rl with _ | r <;>
    rcases stt with _ | t <;>
    simp only [applyUserUpdates, applyUsername, applyEmail, applyRoleField,
      applyStatusField] <;>
    split_ifs <;> rfl

/-- Claim C10: `update_user` modifies only the fields it is given and
preserves every other field of the target user (and every other user's row);
a username, role or status argument that is None or "" is silently ignored,
whereas an email argument equal to "" IS applied — only email distinguishes
absent from empty. -/
theorem C10_update_user_frame :
    ∀ (store : Store) (a : User) (user_id : String)
      (username email role status : Option String) (nowStr : String) (u : User),
      a.role = "Admin" →
      get_user_by_id store user_id = some u →
      (∀ s, username = some s → s ≠ "" →
        store.users.any (fun v => (v.user_ID != user_id) && (strLower v.username == strLower s))
          = false) →
      ∃ u' l1 l2,
        store.users = l1 ++ u :: l2 ∧
        (update_user store (some a) user_id username email role status nowStr).2.users
          = l1 ++ u' :: l2 ∧
        (update_user store (some a) user_id username email role status nowStr).1
          = .ok (some u') ∧
        u'.user_ID = u.user_ID ∧ u'.password_Hash = u.password_Hash ∧
        u'.created_Date = u.created_Date ∧ u'.last_Login = u.last_Login ∧
        u'.created_By = u.created_By ∧ u'.notes = u.notes ∧
        ((username = none ∨ username = some "") → u'.username = u.username) ∧
        (∀ s, username = some s → s ≠ "" → u'.username = s) ∧
        (email = none → u'.email = u.email) ∧
        (∀ s, email = some s → u'.email = s) ∧
        ((role = none ∨ role = some "") → u'.role = u.role) ∧
        (∀ s, role = some s → s ≠ "" → u'.role = s) ∧
        ((status = none ∨ status = some "") → u'.account_Status = u.account_Status) ∧
        (∀ s, status = some s → s ≠ "" → u'.account_Status = s) := by
  intro store a user_id un em rl stt nowStr u hrole hfind hcol
  have hfind' : store.users.find? (fun v => v.user_ID == user_id) = some u := hfind
  obtain ⟨l1, l2, hsplit, hl1, hid, hupd, -⟩ := firstById_split hfind'
  have hupd' := hupd (applyUserUpdates un em rl stt)
  have hred : update_user store (some a) user_id un em rl stt nowStr =
      updUserApply store a user_id un em rl stt nowStr := by
    rcases un with _ | s
    · simp [update_user, hrole]
    · by_cases hs : s = ""
      · simp [update_user, hrole, hs]
      · simp [update_user, hrole, hs, hcol s rfl hs]
  have huid : (applyUserUpdates un em rl stt u).user_ID = u.user_ID := by
    simp [applyUserUpdates_eq]
  have husers : (updUserApply store a user_id un em rl stt nowStr).2.users =
      l1 ++ applyUserUpdates un em rl stt u :: l2 := by
    simp [updUserApply, db_update_user, hfind', log_activity, hupd']
  have hfindafter : (l1 ++ applyUserUpdates un em rl stt u :: l2).find?
      (fun v => v.user_ID == user_id) = some (applyUserUpdates un em rl stt u) := by
    rw [find?_prepend_not hl1]
    exact List.find?_cons_of_pos _ (by simp [huid, hid])
  have hres1 : (updUserApply store a user_id un em rl stt nowStr).1 =
      .ok (some (applyUserUpdates un em rl stt u)) := by
    simp [updUserApply, db_update_user, hfind', log_activity, hupd', get_user_by_id,
      hfindafter]
  rw [hred]
  refine ⟨applyUserUpdates un em rl stt u, l1, l2, hsplit, husers, hres1, huid,
    ?_, ?_, ?_, ?_, ?_, ?_, ?_, ?_, ?_, ?_, ?_, ?_, ?_⟩
  · simp [applyUserUpdates_eq]
  · simp [applyUserUpdates_eq]
  · simp [applyUserUpdates_eq]
  · simp [applyUserUpdates_eq]
  · simp [applyUserUpdates_eq]
  · rintro (rfl | rfl) <;> simp [applyUserUpdates_eq]
  · rintro s rfl hs
    simp [applyUserUpdates_eq, hs]
  · rintro rfl
    simp [applyUserUpdates_eq]
  · rintro s rfl
    simp [applyUserUpdates_eq]
  · rintro (rfl | rfl) <;> simp [applyUserUpdates_eq]
  · rintro s rfl hs
    simp [applyUserUpdates_eq, hs]
  · rintro (rfl | rfl) <;> simp [applyUserUpdates_eq]
  · rintro s rfl hs
    simp [applyUserUpdates_eq, hs]

/-- Witness for C10: update "bob" with a new username, an EMPTY email (which
is applied, clearing the field) and an EMPTY status (which is ignored). -/
theorem C10_update_user_frame_witness :
    ∃ u' l1 l2,
      [aliceAdmin, bobStaff] = l1 ++ bobStaff :: l2 ∧
      (update_user { users := [aliceAdmin, bobStaff], logs := [] } (some aliceAdmin) "USR002"
        (some "bobby") (some "") none (some "") "0").2.users = l1 ++ u' :: l2 ∧
      (update_user { users := [aliceAdmin, bobStaff], logs := [] } (some aliceAdmin) "USR002"
        (some "bobby") (some "") none (some "") "0").1 = .ok (some u') ∧
      u'.user_ID = bobStaff.user_ID ∧ u'.password_Hash = bobStaff.password_Hash ∧
      u'.created_Date = bobStaff.created_Date ∧ u'.last_Login = bobStaff.last_Login ∧
      u'.created_By = bobStaff.created_By ∧ u'.notes = bobStaff.notes ∧
      ((some "bobby" = (none : Option String) ∨ some "bobby" = some "") →
        u'.username = bobStaff.username) ∧
      (∀ s, some "bobby" = some s → s ≠ "" → u'.username = s) ∧
      ((some "" : Option String) = none → u'.email = bobStaff.email) ∧
      (∀ s, (some "" : Option String) = some s → u'.email = s) ∧
      (((none : Option String) = none ∨ (none : Option String) = some "") →
        u'.role = bobStaff.role) ∧
      (∀ s, (none : Option String) = some s → s ≠ "" → u'.role = s) ∧
      (((some "" : Option String) = none ∨ (some "" : Option String) = some "") →
        u'.account_Status = bobStaff.account_Status) ∧
      (∀ s, (some "" : Option String) = some s → s ≠ "" → u'.account_Status = s) :=
  C10_update_user_frame { users := [aliceAdmin, bobStaff], logs := [] } aliceAdmin "USR002"
    (some "bobby") (some "") none (some "") "0"
    bobStaff rfl (by decide) (fun s hs _ => by cases hs; decide)

end InventoryAuth
